import Mathlib

/-!
Verification of the ICS02 create-client transition handler
(modules/src/ics02_client/handler/create_client.rs): the two-phase
pair of functions process (pure validation) and keep (commit), embedded
shallowly in Lean over the data model described by the design document.

The handler source is embedded directly.  Collaborator types that live in
other files of the repository (the output-envelope builder, the error
taxonomy, the reader/keeper capability traits, the polymorphic client
wrapper) are modelled from the design document, as marked on each
definition.
-/

namespace IBC

/-- ClientId: validated textual handle for one light-client instance.
Validation of the string happens at parse time, outside this handler, so
the embedding treats it as a plain string. -/
abbrev ClientId := String

/-- Modelled from the spec: `ClientType` is an enumerated tag naming which
verification algorithm backs a client (`client_type.rs` is not part of the
handler source).  The supported algorithms visible in the handler and its
tests are tendermint and the mock client used for testing. -/
inductive ClientType
  | Tendermint
  | Mock
deriving DecidableEq

/-- Mock client state used in the handler tests (`MockClientState(i32)`). -/
structure MockClientState where
  val : Int
deriving DecidableEq

/-- Mock consensus state used in the handler tests (`MockConsensusState(i32)`). -/
structure MockConsensusState where
  val : Int
deriving DecidableEq

/-- Modelled from the spec: an algorithm-specific client-state payload for
the tendermint algorithm, out of scope for this handler and hence left
without observable structure. -/
structure TendermintClientState
deriving DecidableEq

/-- Modelled from the spec: an algorithm-specific consensus-state payload
for the tendermint algorithm, out of scope for this handler. -/
structure TendermintConsensusState
deriving DecidableEq

/-- Modelled from the spec: the polymorphic client wrapper, a sum type over
all supported verification algorithms, specialised to client states
(`AnyClient::ClientState` in the source). -/
inductive AnyClientState
  | Mock (s : MockClientState)
  | Tendermint (s : TendermintClientState)
deriving DecidableEq

/-- Modelled from the spec: the polymorphic wrapper specialised to
consensus states (`AnyClient::ConsensusState` in the source). -/
inductive AnyConsensusState
  | Mock (s : MockConsensusState)
  | Tendermint (s : TendermintConsensusState)
deriving DecidableEq

/-- The verification algorithm of a concrete client-state payload: the tag
the wrapper invariant of the data model requires the carried `ClientType`
to match. -/
def AnyClientState.clientType : AnyClientState → ClientType
  | .Mock _ => ClientType.Mock
  | .Tendermint _ => ClientType.Tendermint

/-- Modelled from the spec: the closed error taxonomy of ICS02
(`error.rs` is not part of the handler source).  The create-client
transition uses exactly one kind, `ClientAlreadyExists`; a second kind
stands for the store-level errors that keeper operations may surface. -/
inductive Kind
  | ClientAlreadyExists (client_id : ClientId)
  | StoreFailure (description : String)
deriving DecidableEq

/-- Modelled from the spec: a typed error is its kind plus the identifying
data the kind carries (the source wraps `Kind` into `Error` via `.into()`). -/
structure Error where
  kind : Kind
deriving DecidableEq

/-- The `Kind → Error` conversion, mirroring the source's `.into()`. -/
def Kind.toError (k : Kind) : Error := Error.mk k

/-- Modelled from the spec: a domain event of the client lifecycle; the
create-client transition emits exactly `ClientCreated(client_id)`. -/
inductive ClientEvent
  | ClientCreated (client_id : ClientId)
deriving DecidableEq

/-- Modelled from the spec: the immutable output envelope returned by a
successful `process` — one result, the ordered log entries and the ordered
events accumulated during validation. -/
structure HandlerOutput (T : Type) where
  result : T
  log : List String
  events : List ClientEvent
deriving DecidableEq

/-- Modelled from the spec: the builder that accumulates log entries and
events in call order and is finalised exactly once by attaching a result. -/
structure HandlerOutputBuilder where
  log : List String
  events : List ClientEvent
deriving DecidableEq

/-- The empty accumulator returned by the source's builder constructor. -/
def HandlerOutputBuilder.builder : HandlerOutputBuilder :=
  HandlerOutputBuilder.mk [] []

/-- Append one log entry in call order (the source's builder method named
log). -/
def HandlerOutputBuilder.logMsg (b : HandlerOutputBuilder) (s : String) :
    HandlerOutputBuilder :=
  HandlerOutputBuilder.mk (b.log ++ [s]) b.events

/-- Append one event in call order (the source's builder method named
emit). -/
def HandlerOutputBuilder.emit (b : HandlerOutputBuilder) (e : ClientEvent) :
    HandlerOutputBuilder :=
  HandlerOutputBuilder.mk b.log (b.events ++ [e])

/-- Finalise the builder into an envelope by attaching the result. -/
def HandlerOutputBuilder.with_result (b : HandlerOutputBuilder) (r : T) :
    HandlerOutput T :=
  HandlerOutput.mk r b.log b.events

/-- Modelled from the spec: the `ClientReader` capability — one consistent
snapshot of the committed store, exposing pure queries for the client state
and the client type under a `ClientId`.  The payload type is a parameter,
as the handler never inspects it. -/
structure ClientReader (CS : Type) where
  client_state : ClientId → Option CS
  client_type : ClientId → Option ClientType

/-- The create-client request `MsgCreateAnyClient`, carrying the fields the
source destructures: client id, client type, client state, consensus
state. -/
structure MsgCreateAnyClient (CS CN : Type) where
  client_id : ClientId
  client_type : ClientType
  client_state : CS
  consensus_state : CN
deriving DecidableEq

/-- CreateClientResult: the not-yet-committed transition result produced
by a successful `process`. -/
structure CreateClientResult (CS CN : Type) where
  client_id : ClientId
  client_type : ClientType
  client_state : CS
  consensus_state : CN
deriving DecidableEq

/-- Modelled from the spec: the handler result alias, a fallible envelope
(`handler.rs` is not part of the handler source). -/
abbrev HandlerResult (T E : Type) := Except E (HandlerOutput T)

/-- The create-client validation phase, embedded from `process` in
`create_client.rs`: check that neither a client state nor a client type is
already present under the request's client id (failing with
`ClientAlreadyExists` on either), narrate each passed check in the log,
emit the `ClientCreated` event and return the request's fields as the
transition result. -/
def process (ctx : ClientReader CS) (msg : MsgCreateAnyClient CS CN) :
    HandlerResult (CreateClientResult CS CN) Error :=
  let output := HandlerOutputBuilder.builder
  if (ctx.client_state msg.client_id).isSome then
    Except.error (Kind.ClientAlreadyExists msg.client_id).toError
  else
    let output := output.logMsg "success: no client state found"
    if (ctx.client_type msg.client_id).isSome then
      Except.error (Kind.ClientAlreadyExists msg.client_id).toError
    else
      let output := output.logMsg "success: no client type found"
      let output := output.emit (ClientEvent.ClientCreated msg.client_id)
      Except.ok (output.with_result
        (CreateClientResult.mk msg.client_id msg.client_type
          msg.client_state msg.consensus_state))

/-- Modelled from the spec: the `ClientKeeper` capability — the three
mutating store operations, each fallible.  The Rust trait mutates the
keeper in place through `&mut`; the embedding passes the keeper's state
`σ` explicitly and returns the updated state on success. -/
structure ClientKeeper (σ CS CN : Type) where
  store_client_type : σ → ClientId → ClientType → Except Error σ
  store_client_state : σ → ClientId → CS → Except Error σ
  store_consensus_state : σ → ClientId → CN → Except Error σ

/-- The create-client commit phase, embedded from `keep` in
`create_client.rs`: store the client type, then the client state, then the
consensus state, each keyed by the result's client id, propagating the
first store error unchanged via `?`. -/
def keep (k : ClientKeeper σ CS CN) (s : σ) (r : CreateClientResult CS CN) :
    Except Error σ :=
  match k.store_client_type s r.client_id r.client_type with
  | Except.error e => Except.error e
  | Except.ok s1 =>
    match k.store_client_state s1 r.client_id r.client_state with
    | Except.error e => Except.error e
    | Except.ok s2 =>
      match k.store_consensus_state s2 r.client_id r.consensus_state with
      | Except.error e => Except.error e
      | Except.ok s3 => Except.ok s3

/-- Lookup in an association list keyed by `ClientId`: the value of the
first (most recently written) entry for the id, if any. -/
def lookupKV (l : List (ClientId × α)) (id : ClientId) : Option α :=
  (l.find? (fun p => p.1 == id)).map (fun p => p.2)

/-- Modelled from the spec: a concrete committed store, holding the
separately-addressable client-type, client-state and consensus-state facts
as association lists (a later write for the same id shadows an earlier
one, giving the keeper's overwrite semantics). -/
structure Store (CS CN : Type) where
  client_types : List (ClientId × ClientType)
  client_states : List (ClientId × CS)
  consensus_states : List (ClientId × CN)
deriving DecidableEq

/-- Modelled from the spec: the `ClientReader` snapshot a store presents —
pure lookups of the client state and the client type. -/
def readerOfStore (s : Store CS CN) : ClientReader CS :=
  ClientReader.mk (fun id => lookupKV s.client_states id)
    (fun id => lookupKV s.client_types id)

/-- Modelled from the spec: the `ClientKeeper` a store provides — each of
the three store operations writes its entry under the given id
(unconditionally overwriting any prior entry) and succeeds. -/
def storeKeeper (CS CN : Type) : ClientKeeper (Store CS CN) CS CN :=
  ClientKeeper.mk
    (fun s id ct => Except.ok
      (Store.mk ((id, ct) :: s.client_types) s.client_states s.consensus_states))
    (fun s id cs => Except.ok
      (Store.mk s.client_types ((id, cs) :: s.client_states) s.consensus_states))
    (fun s id cn => Except.ok
      (Store.mk s.client_types s.client_states ((id, cn) :: s.consensus_states)))

/-- The store obtained from `s` by writing all three facts of a transition
result `r` under `r.client_id`. -/
def applyResult (s : Store CS CN) (r : CreateClientResult CS CN) : Store CS CN :=
  Store.mk ((r.client_id, r.client_type) :: s.client_types)
    ((r.client_id, r.client_state) :: s.client_states)
    ((r.client_id, r.consensus_state) :: s.consensus_states)

/-- One invocation of a keeper store operation, with the key and value it
was given: the observable footprint of `keep` on the store interface. -/
inductive StoreOp (CS CN : Type)
  | storeClientType (id : ClientId) (ct : ClientType)
  | storeClientState (id : ClientId) (cs : CS)
  | storeConsensusState (id : ClientId) (cn : CN)
deriving DecidableEq

/-- Instrumentation of a keeper: behaves exactly like `k` but additionally
records, in order, every store operation that completes successfully. -/
def traced (k : ClientKeeper σ CS CN) :
    ClientKeeper (σ × List (StoreOp CS CN)) CS CN :=
  ClientKeeper.mk
    (fun p id ct => (k.store_client_type p.1 id ct).map
      (fun s => (s, p.2 ++ [StoreOp.storeClientType id ct])))
    (fun p id cs => (k.store_client_state p.1 id cs).map
      (fun s => (s, p.2 ++ [StoreOp.storeClientState id cs])))
    (fun p id cn => (k.store_consensus_state p.1 id cn).map
      (fun s => (s, p.2 ++ [StoreOp.storeConsensusState id cn])))

/-- The reader snapshot observable after a `process` call.  `process`
receives the reader by shared borrow (`&dyn ClientReader`) and the borrow
rules make mutation through it impossible, so the post-call snapshot is
the very snapshot that was passed in. -/
def readerAfterProcess (ctx : ClientReader CS)
    (_msg : MsgCreateAnyClient CS CN) : ClientReader CS :=
  ctx

/-! Concrete instances, taken from the handler's own tests: the request
of `test_create_client_ok` (client id "mockclient", tendermint tag, mock
payloads valued 42) and the reader snapshots of the three mock-reader
scenarios. -/

/-- The create-client request of the test `test_create_client_ok`. -/
def msg42 : MsgCreateAnyClient AnyClientState AnyConsensusState :=
  MsgCreateAnyClient.mk "mockclient" ClientType.Tendermint
    (AnyClientState.Mock (MockClientState.mk 42))
    (AnyConsensusState.Mock (MockConsensusState.mk 42))

/-- A reader snapshot with no client present anywhere. -/
def emptyAnyReader : ClientReader AnyClientState :=
  ClientReader.mk (fun _ => none) (fun _ => none)

/-- A reader snapshot where only a client state is present under
"mockclient" (the scenario of `test_create_client_existing_client_state`). -/
def reader10 : ClientReader AnyClientState :=
  ClientReader.mk
    (fun id => if id == "mockclient"
      then some (AnyClientState.Mock (MockClientState.mk 0)) else none)
    (fun _ => none)

/-- A reader snapshot where only a client type is present under
"mockclient" (the scenario of `test_create_client_existing_client_type`). -/
def readerTypeOnly : ClientReader AnyClientState :=
  ClientReader.mk (fun _ => none)
    (fun id => if id == "mockclient" then some ClientType.Tendermint else none)

/-- A reader agreeing with `reader10` on presence under "mockclient" but
with a different stored value there and extra entries under other ids. -/
def reader10b : ClientReader AnyClientState :=
  ClientReader.mk
    (fun id => if id == "mockclient"
      then some (AnyClientState.Mock (MockClientState.mk 99))
      else some (AnyClientState.Tendermint TendermintClientState.mk))
    (fun _ => none)

/-- The transition result produced by `process` on `msg42` against a fresh
store. -/
def r42 : CreateClientResult AnyClientState AnyConsensusState :=
  CreateClientResult.mk "mockclient" ClientType.Tendermint
    (AnyClientState.Mock (MockClientState.mk 42))
    (AnyConsensusState.Mock (MockConsensusState.mk 42))

/-- The full output envelope of that fresh-store run. -/
def out42 : HandlerOutput (CreateClientResult AnyClientState AnyConsensusState) :=
  HandlerOutput.mk r42
    ["success: no client state found", "success: no client type found"]
    [ClientEvent.ClientCreated "mockclient"]

/-- The one error this transition can produce, at client id "mockclient". -/
def errExists : Error := Error.mk (Kind.ClientAlreadyExists "mockclient")

/-- An empty concrete store. -/
def emptyStore : Store AnyClientState AnyConsensusState := Store.mk [] [] []

/-- A keeper whose every store operation fails with a store-level error. -/
def failKeeper : ClientKeeper Unit AnyClientState AnyConsensusState :=
  ClientKeeper.mk
    (fun _ _ _ => Except.error (Error.mk (Kind.StoreFailure "store failure")))
    (fun _ _ _ => Except.error (Error.mk (Kind.StoreFailure "store failure")))
    (fun _ _ _ => Except.error (Error.mk (Kind.StoreFailure "store failure")))

/-- C1: `process` errs exactly when the snapshot has a client state or a
client type present under the request's client id (so each asymmetric case
independently triggers the failure), and every error it returns is
`ClientAlreadyExists` at that client id — no other error kind occurs. -/
theorem process_error_characterization (CS CN : Type) (ctx : ClientReader CS)
    (msg : MsgCreateAnyClient CS CN) :
    ((∃ e, process ctx msg = Except.error e) ↔
      ((ctx.client_state msg.client_id).isSome ∨
        (ctx.client_type msg.client_id).isSome)) ∧
    ∀ e, process ctx msg = Except.error e →
      e = Error.mk (Kind.ClientAlreadyExists msg.client_id) := by
  unfold process
  cases hs : (ctx.client_state msg.client_id).isSome <;>
    cases ht : (ctx.client_type msg.client_id).isSome <;>
      simp [hs, ht, Kind.toError]

/-- Witness for C1: on the reader holding only a client state under
"mockclient", `process` fails and the theorem pins the error to
`ClientAlreadyExists("mockclient")`. -/
theorem process_error_characterization_witness :
    process reader10 msg42 = Except.error errExists ∧
    errExists = Error.mk (Kind.ClientAlreadyExists "mockclient") := by
  constructor
  · rfl
  · exact (process_error_characterization AnyClientState AnyConsensusState
      reader10 msg42).2 errExists (by rfl)

/-- C2: on a snapshot where neither a client state nor a client type is
present under the request's client id, `process` succeeds with the
request's four fields as the result, exactly the two fixed log lines in
order, and exactly the one `ClientCreated` event. -/
theorem process_fresh_success (CS CN : Type) (ctx : ClientReader CS)
    (msg : MsgCreateAnyClient CS CN)
    (hs : ctx.client_state msg.client_id = none)
    (ht : ctx.client_type msg.client_id = none) :
    process ctx msg = Except.ok (HandlerOutput.mk
      (CreateClientResult.mk msg.client_id msg.client_type msg.client_state
        msg.consensus_state)
      ["success: no client state found", "success: no client type found"]
      [ClientEvent.ClientCreated msg.client_id]) := by
  unfold process
  simp [hs, ht, HandlerOutputBuilder.builder, HandlerOutputBuilder.logMsg,
    HandlerOutputBuilder.emit, HandlerOutputBuilder.with_result]

/-- Witness for C2: the fresh-store scenario of `test_create_client_ok`. -/
theorem process_fresh_success_witness :
    emptyAnyReader.client_state "mockclient" = none ∧
    emptyAnyReader.client_type "mockclient" = none ∧
    process emptyAnyReader msg42 = Except.ok out42 := by
  refine ⟨rfl, rfl, ?_⟩
  exact process_fresh_success AnyClientState AnyConsensusState
    emptyAnyReader msg42 (by rfl) (by rfl)

/-- C5: `process` is deterministic — for a fixed snapshot and request, two
invocations agree; two successful outcomes have the same result, log and
events, and two failing outcomes carry the same error. -/
theorem process_deterministic (CS CN : Type) (ctx : ClientReader CS)
    (msg : MsgCreateAnyClient CS CN) :
    process ctx msg = process ctx msg ∧
    (∀ o₁ o₂, process ctx msg = Except.ok o₁ → process ctx msg = Except.ok o₂ →
      o₁.result = o₂.result ∧ o₁.log = o₂.log ∧ o₁.events = o₂.events) ∧
    (∀ e₁ e₂, process ctx msg = Except.error e₁ →
      process ctx msg = Except.error e₂ → e₁ = e₂) := by
  refine ⟨rfl, ?_, ?_⟩
  · intro o₁ o₂ h1 h2
    rw [h1] at h2
    cases h2
    exact ⟨rfl, rfl, rfl⟩
  · intro e₁ e₂ h1 h2
    rw [h1] at h2
    cases h2
    rfl

/-- Witness for C5: repeated runs on the concrete success and failure
scenarios agree componentwise. -/
theorem process_deterministic_witness :
    (out42.result = out42.result ∧ out42.log = out42.log ∧
      out42.events = out42.events) ∧
    errExists = errExists := by
  constructor
  · exact (process_deterministic AnyClientState AnyConsensusState
      emptyAnyReader msg42).2.1 out42 out42 (by rfl) (by rfl)
  · exact (process_deterministic AnyClientState AnyConsensusState
      reader10 msg42).2.2 errExists errExists (by rfl) (by rfl)

/-- C6: `process` mutates nothing observable through the reader — the
post-call snapshot answers every query exactly as the pre-call snapshot
did — and a second identical call after a failure fails with the identical
error. -/
theorem process_no_mutation (CS CN : Type) (ctx : ClientReader CS)
    (msg : MsgCreateAnyClient CS CN) :
    (∀ id, (readerAfterProcess ctx msg).client_state id = ctx.client_state id ∧
      (readerAfterProcess ctx msg).client_type id = ctx.client_type id) ∧
    (∀ e, process ctx msg = Except.error e →
      process (readerAfterProcess ctx msg) msg = Except.error e) := by
  exact ⟨fun _ => ⟨rfl, rfl⟩, fun _ h => h⟩

/-- Witness for C6: after the failing run on `reader10`, the repeated call
against the post-call snapshot returns the identical error. -/
theorem process_no_mutation_witness :
    process (readerAfterProcess reader10 msg42) msg42 =
      Except.error errExists := by
  exact (process_no_mutation AnyClientState AnyConsensusState
    reader10 msg42).2 errExists (by rfl)

/-- C7: when the client-state check passes (a log entry has already been
appended to the builder) and the client-type check then fails, the caller
receives exactly the bare typed error — the `Except.error` constructor
carries no envelope, so the partial log, events and result are discarded
and unobservable. -/
theorem process_failure_bare_error (CS CN : Type) (ctx : ClientReader CS)
    (msg : MsgCreateAnyClient CS CN)
    (hs : ctx.client_state msg.client_id = none)
    (ht : (ctx.client_type msg.client_id).isSome = true) :
    process ctx msg =
      Except.error (Error.mk (Kind.ClientAlreadyExists msg.client_id)) := by
  unfold process
  simp [hs, ht, Kind.toError]

/-- Witness for C7: the type-only-present scenario of
`test_create_client_existing_client_type`. -/
theorem process_failure_bare_error_witness :
    process readerTypeOnly msg42 = Except.error errExists := by
  exact process_failure_bare_error AnyClientState AnyConsensusState
    readerTypeOnly msg42 (by rfl) (by rfl)

/-- C10: the output of `process` depends only on the request and on
whether the snapshot holds a client state and a client type under the
request's client id — snapshots agreeing on those two presence bits give
identical outputs, whatever their stored contents or other entries. -/
theorem process_presence_only (CS CN : Type) (ctx₁ ctx₂ : ClientReader CS)
    (msg : MsgCreateAnyClient CS CN)
    (hs : (ctx₁.client_state msg.client_id).isSome =
      (ctx₂.client_state msg.client_id).isSome)
    (ht : (ctx₁.client_type msg.client_id).isSome =
      (ctx₂.client_type msg.client_id).isSome) :
    process ctx₁ msg = process ctx₂ msg := by
  unfold process
  rw [hs, ht]

/-- Witness for C10: two snapshots storing different client-state values
under "mockclient" (and differing on every other id) still produce the
same output. -/
theorem process_presence_only_witness :
    process reader10 msg42 = process reader10b msg42 := by
  exact process_presence_only AnyClientState AnyConsensusState
    reader10 reader10b msg42 (by rfl) (by rfl)

/-- C3: `keep` applies exactly the three keeper operations in the order
store-client-type, store-client-state, store-consensus-state, each keyed
by the result's client id (part 1, via the instrumented keeper); if the
first, second or third operation fails, `keep` returns that store error
unchanged, and the outcome is independent of the operations that come
after the failing one, which are therefore never invoked (parts 2 to 4);
earlier successful stores are not rolled back (their effect is the state
the failing operation received). -/
theorem keep_order_and_short_circuit (σ CS CN : Type) (k : ClientKeeper σ CS CN)
    (s : σ) (r : CreateClientResult CS CN) :
    (∀ s3, keep k s r = Except.ok s3 →
      keep (traced k) (s, []) r = Except.ok (s3,
        [StoreOp.storeClientType r.client_id r.client_type,
         StoreOp.storeClientState r.client_id r.client_state,
         StoreOp.storeConsensusState r.client_id r.consensus_state])) ∧
    (∀ e, k.store_client_type s r.client_id r.client_type = Except.error e →
      ∀ f g, keep (ClientKeeper.mk k.store_client_type f g) s r =
        Except.error e) ∧
    (∀ s1 e, k.store_client_type s r.client_id r.client_type = Except.ok s1 →
      k.store_client_state s1 r.client_id r.client_state = Except.error e →
      ∀ g, keep (ClientKeeper.mk k.store_client_type k.store_client_state g) s r =
        Except.error e) ∧
    (∀ s1 s2 e, k.store_client_type s r.client_id r.client_type = Except.ok s1 →
      k.store_client_state s1 r.client_id r.client_state = Except.ok s2 →
      k.store_consensus_state s2 r.client_id r.consensus_state = Except.error e →
      keep k s r = Except.error e) := by
  refine ⟨?_, ?_, ?_, ?_⟩
  · intro s3 h
    unfold keep at h ⊢
    cases h1 : k.store_client_type s r.client_id r.client_type with
    | error e => simp [h1] at h
    | ok s1 =>
      cases h2 : k.store_client_state s1 r.client_id r.client_state with
      | error e => simp [h1, h2] at h
      | ok s2 =>
        cases h3 : k.store_consensus_state s2 r.client_id r.consensus_state with
        | error e => simp [h1, h2, h3] at h
        | ok s3x =>
          simp [h1, h2, h3] at h
          simp [traced, h1, h2, h3, Except.map, h]
  · intro e h f g
    unfold keep
    simp [h]
  · intro s1 e h1 h2 g
    unfold keep
    simp [h1, h2]
  · intro s1 s2 e h1 h2 h3
    unfold keep
    simp [h1, h2, h3]

/-- Witness for C3: committing the test result against the empty store
performs the three operations in order; against the all-failing keeper the
first store error comes back unchanged. -/
theorem keep_order_and_short_circuit_witness :
    keep (traced (storeKeeper AnyClientState AnyConsensusState))
      (emptyStore, []) r42 = Except.ok (applyResult emptyStore r42,
        [StoreOp.storeClientType "mockclient" ClientType.Tendermint,
         StoreOp.storeClientState "mockclient"
           (AnyClientState.Mock (MockClientState.mk 42)),
         StoreOp.storeConsensusState "mockclient"
           (AnyConsensusState.Mock (MockConsensusState.mk 42))]) ∧
    keep failKeeper () r42 =
      Except.error (Error.mk (Kind.StoreFailure "store failure")) := by
  constructor
  · exact (keep_order_and_short_circuit (Store AnyClientState AnyConsensusState)
      AnyClientState AnyConsensusState (storeKeeper AnyClientState AnyConsensusState)
      emptyStore r42).1 (applyResult emptyStore r42) (by rfl)
  · exact (keep_order_and_short_circuit Unit AnyClientState AnyConsensusState
      failKeeper () r42).2.1 (Error.mk (Kind.StoreFailure "store failure"))
      (by rfl) failKeeper.store_client_state failKeeper.store_consensus_state

/-- C4: when `keep(result)` succeeds against a store, the reader presented
by the resulting store answers the client-state and client-type queries
for the result's client id with exactly the values carried in the result,
and the store holds exactly the result's consensus state under that id
(the reader interface of the design document exposes no consensus-state
query, so that last fact is read off the store itself). -/
theorem keep_commit_correct (CS CN : Type) (s s' : Store CS CN)
    (r : CreateClientResult CS CN)
    (h : keep (storeKeeper CS CN) s r = Except.ok s') :
    (readerOfStore s').client_state r.client_id = some r.client_state ∧
    (readerOfStore s').client_type r.client_id = some r.client_type ∧
    lookupKV s'.consensus_states r.client_id = some r.consensus_state := by
  have hk : keep (storeKeeper CS CN) s r = Except.ok (applyResult s r) := by
    simp [keep, storeKeeper, applyResult]
  rw [hk] at h
  cases h
  simp [readerOfStore, applyResult, lookupKV, List.find?]

/-- Witness for C4: scenario 4 of the design document — the fresh-store
result committed to the empty store and read back. -/
theorem keep_commit_correct_witness :
    keep (storeKeeper AnyClientState AnyConsensusState) emptyStore r42 =
      Except.ok (applyResult emptyStore r42) ∧
    ((readerOfStore (applyResult emptyStore r42)).client_state "mockclient" =
        some (AnyClientState.Mock (MockClientState.mk 42)) ∧
      (readerOfStore (applyResult emptyStore r42)).client_type "mockclient" =
        some ClientType.Tendermint ∧
      lookupKV (applyResult emptyStore r42).consensus_states "mockclient" =
        some (AnyConsensusState.Mock (MockConsensusState.mk 42))) := by
  constructor
  · rfl
  · exact keep_commit_correct AnyClientState AnyConsensusState emptyStore
      (applyResult emptyStore r42) r42 (by rfl)

/-- C9: `keep` performs no existence check — against the concrete store
keeper it succeeds on every store, including stores already holding
entries for the result's client id, and afterwards all three queries
return the result's values (prior entries are shadowed); calling `keep`
again with the same result succeeds again, changing the store (so it is
not a no-op) while the observable values stay the result's — a silent
overwrite, never a `ClientAlreadyExists` error. -/
theorem keep_silent_overwrite (CS CN : Type) (s : Store CS CN)
    (r : CreateClientResult CS CN) :
    ∃ s', keep (storeKeeper CS CN) s r = Except.ok s' ∧
      lookupKV s'.client_types r.client_id = some r.client_type ∧
      lookupKV s'.client_states r.client_id = some r.client_state ∧
      lookupKV s'.consensus_states r.client_id = some r.consensus_state ∧
      ∃ s'', keep (storeKeeper CS CN) s' r = Except.ok s'' ∧ s'' ≠ s' ∧
        lookupKV s''.client_types r.client_id = some r.client_type ∧
        lookupKV s''.client_states r.client_id = some r.client_state ∧
        lookupKV s''.consensus_states r.client_id = some r.consensus_state := by
  refine ⟨applyResult s r, by simp [keep, storeKeeper, applyResult], ?_, ?_, ?_,
    applyResult (applyResult s r) r,
    by simp [keep, storeKeeper, applyResult], ?_, ?_, ?_, ?_⟩
  · simp [applyResult, lookupKV, List.find?]
  · simp [applyResult, lookupKV, List.find?]
  · simp [applyResult, lookupKV, List.find?]
  · intro h
    have := congrArg (fun st => st.client_types.length) h
    simp [applyResult] at this
  · simp [applyResult, lookupKV, List.find?]
  · simp [applyResult, lookupKV, List.find?]
  · simp [applyResult, lookupKV, List.find?]

/-- C8 counterexample: on the repository's own test input — the request of
`test_create_client_ok`, whose tag is tendermint while its payloads are
mock — `process` succeeds against the empty snapshot and the returned
result's client-type tag does not match the verification algorithm of the
client-state payload it carries, refuting the claim that every successful
result satisfies the wrapper invariant. -/
theorem process_tag_mismatch_cex :
    ∃ out, process emptyAnyReader msg42 = Except.ok out ∧
      ¬ out.result.client_type =
        AnyClientState.clientType out.result.client_state := by
  refine ⟨out42, ?_, by decide⟩
  rfl

/-- C8 (amended): `process` copies the request's tag and payloads into the
result verbatim and performs no tag validation, so the successful result
satisfies the wrapper invariant exactly when the request already did. -/
theorem process_tag_from_request (ctx : ClientReader AnyClientState)
    (msg : MsgCreateAnyClient AnyClientState AnyConsensusState)
    (out : HandlerOutput (CreateClientResult AnyClientState AnyConsensusState))
    (h : process ctx msg = Except.ok out) :
    out.result.client_type = msg.client_type ∧
    out.result.client_state = msg.client_state ∧
    (out.result.client_type = AnyClientState.clientType out.result.client_state ↔
      msg.client_type = AnyClientState.clientType msg.client_state) := by
  unfold process at h
  cases hs : (ctx.client_state msg.client_id).isSome <;> rw [hs] at h
  · cases ht : (ctx.client_type msg.client_id).isSome <;> rw [ht] at h
    · simp [HandlerOutputBuilder.builder, HandlerOutputBuilder.logMsg,
        HandlerOutputBuilder.emit, HandlerOutputBuilder.with_result] at h
      subst h
      simp
    · simp at h
  · simp at h

/-- Witness for C8 (amended): on the mismatched test request the invariant
fails on both sides of the equivalence; the result carries the request's
tag and payload verbatim. -/
theorem process_tag_from_request_witness :
    out42.result.client_type = msg42.client_type ∧
    out42.result.client_state = msg42.client_state ∧
    (out42.result.client_type =
        AnyClientState.clientType out42.result.client_state ↔
      msg42.client_type = AnyClientState.clientType msg42.client_state) := by
  exact process_tag_from_request emptyAnyReader msg42 out42 (by rfl)

end IBC
